import Mathlib

/-!
Shallow embedding of the inventory-reservation and payment-reconciliation
engine of the NPS-API repository (src/src/services/stock.service.js,
cart.service.js, orders.service.js, payments.service.js), together with
theorems settling the frozen claims about it.

The embedding is sequential: each service call is a function from a
database state to a new database state plus a result.  Prisma calls are
modelled as list operations on the state; `new Date()` is modelled by an
explicit `now : Nat` parameter (milliseconds), frozen for the duration of
one call.  JS numbers holding quantities, prices and amounts are modelled
as `Int` (the code never truncates them).  Nullable columns are `Option`.
Error `throw`s are `Except.error` carrying the message string (messages
are kept verbatim except that interpolated ids are dropped).
-/

namespace NPS

/-- A row of the products table (the columns the engine reads). -/
structure Product where
  product_id : Nat
  stock_quantity : Int
  price : Int
  active : Bool
  visible : Bool
deriving Repr, DecidableEq

/-- A row of the append-only stock_movements audit table.
The column named `type` in the schema is rendered `mtype` here. -/
structure StockMovement where
  product_id : Nat
  mtype : String
  quantity : Int
  reason : String
deriving Repr, DecidableEq

/-- A row of the stock_reservations table. -/
structure StockReservation where
  cart_id : Nat
  product_id : Nat
  quantity : Int
  expires_at : Nat
deriving Repr, DecidableEq

/-- A row of the carts table. -/
structure Cart where
  cart_id : Nat
  user_id : Option Nat
  guest_id : Option String
  status : String
deriving Repr, DecidableEq

/-- A row of the cart_items table. -/
structure CartItem where
  cart_item_id : Nat
  cart_id : Nat
  product_id : Nat
  quantity : Int
  reserved_until : Option Nat
deriving Repr, DecidableEq

/-- A row of the orders table (the columns the engine reads or writes). -/
structure Order where
  order_id : Nat
  user_id : Option Nat
  guest_id : Option String
  order_token : Option String
  status : String
  total_amount : Int
deriving Repr, DecidableEq

/-- A row of the order_items table. -/
structure OrderItem where
  order_id : Nat
  product_id : Nat
  quantity : Int
  unit_price : Int
  subtotal : Int
deriving Repr, DecidableEq

/-- A row of the payments table (the columns the engine reads or writes). -/
structure Payment where
  payment_id : Nat
  order_id : Nat
  payu_transaction_id : Option String
  status : String
deriving Repr, DecidableEq

/-- The transactional store.  The `next...` counters model the
auto-increment ids Prisma assigns on `create`. -/
structure DB where
  products : List Product
  stockMovements : List StockMovement
  stockReservations : List StockReservation
  carts : List Cart
  cartItems : List CartItem
  orders : List Order
  orderItems : List OrderItem
  payments : List Payment
  nextCartId : Nat
  nextCartItemId : Nat
  nextOrderId : Nat
deriving Repr, DecidableEq

/-- `prisma.product.findUnique({ where: { product_id } })`. -/
def findProduct (db : DB) (pid : Nat) : Option Product :=
  db.products.find? (fun p => p.product_id == pid)

/-- `prisma.product.update` applying `f` to the stock of product `pid`. -/
def updateStock (db : DB) (pid : Nat) (f : Int → Int) : DB :=
  { db with products := db.products.map (fun p =>
      if p.product_id == pid then { p with stock_quantity := f p.stock_quantity } else p) }

/-- `prisma.stockMovement.create`. -/
def appendMovement (db : DB) (m : StockMovement) : DB :=
  { db with stockMovements := db.stockMovements ++ [m] }

/-- The active (non-expired) reservations of product `pid`:
`stockReservations: { where: { expires_at: { gt: new Date() } } }`. -/
def activeReservationsFor (db : DB) (now : Nat) (pid : Nat) : List StockReservation :=
  db.stockReservations.filter (fun r => r.product_id == pid && now < r.expires_at)

/-- `reservations.reduce((total, r) => total + r.quantity, 0)`. -/
def reservedQuantity (db : DB) (now : Nat) (pid : Nat) : Int :=
  (activeReservationsFor db now pid).foldl (fun total r => total + r.quantity) 0

/-- stock.service.js `createStockMovement`: validates the product exists;
for an `exit` checks `quantity > stock_quantity` and decrements, for an
`entry` increments; then appends one movement row.  (The source performs
the product update and the movement insert as two separate awaited calls
with no surrounding transaction; sequentially that equals this compound
state update.) -/
def createStockMovement (db : DB) (pid : Nat) (mtype : String) (quantity : Int)
    (reason : String) : DB × Except String StockMovement :=
  match findProduct db pid with
  | none => (db, Except.error "Product not found")
  | some product =>
    if mtype == "exit" then
      if quantity > product.stock_quantity then
        (db, Except.error "Insufficient stock for exit movement")
      else
        let db1 := updateStock db pid (fun s => s - quantity)
        let m : StockMovement := ⟨pid, mtype, quantity, reason⟩
        (appendMovement db1 m, Except.ok m)
    else if mtype == "entry" then
      let db1 := updateStock db pid (fun s => s + quantity)
      let m : StockMovement := ⟨pid, mtype, quantity, reason⟩
      (appendMovement db1 m, Except.ok m)
    else
      let m : StockMovement := ⟨pid, mtype, quantity, reason⟩
      (appendMovement db m, Except.ok m)

/-- The conditional delete inside the sweep:
`stockReservation.deleteMany({ where: { expires_at: { lte: now } } })`.
The predicate reads the stored `expires_at` of each row at delete time. -/
def sweepDelete (rs : List StockReservation) (now : Nat) : List StockReservation :=
  rs.filter (fun r => !(r.expires_at ≤ now))

/-- Total quantity of the reservations of product `pid` within `rs`
(the per-product accumulation into `productMovements`). -/
def expiredSum (rs : List StockReservation) (pid : Nat) : Int :=
  (rs.filter (fun r => r.product_id == pid)).foldl (fun total r => total + r.quantity) 0

/-- The compensation movements the sweep records: one `entry` row per
product that has an expired reservation, with the summed quantity.
(JS enumerates the group keys in ascending numeric order; the dedup
order used here differs only in the ordering of the appended batch.) -/
def sweepMovements (rs : List StockReservation) : List StockMovement :=
  ((rs.map (fun r => r.product_id)).dedup).map
    (fun pid => ⟨pid, "entry", expiredSum rs pid, "RESERVATION_EXPIRED"⟩)

/-- stock.service.js `cleanupExpiredReservations`: scans the reservations
with `expires_at ≤ now`, returns early if none, otherwise records one
`entry` movement per affected product and conditionally deletes the
expired rows, returning the scan count. -/
def cleanupExpiredReservations (db : DB) (now : Nat) : DB × Nat :=
  let expired := db.stockReservations.filter (fun r => r.expires_at ≤ now)
  if expired.isEmpty then (db, 0)
  else
    ({ db with
        stockMovements := db.stockMovements ++ sweepMovements expired,
        stockReservations := sweepDelete db.stockReservations now },
      expired.length)

/-- The cart whereCondition:
`userId ? { user_id, status: active } : { guest_id, status: active }`. -/
def findActiveCart (db : DB) (userId : Option Nat) (guestId : Option String) : Option Cart :=
  db.carts.find? (fun c =>
    (match userId with
     | some u => c.user_id == some u
     | none => c.guest_id == guestId) && c.status == "active")

/-- cart.service.js `getOrCreateActiveCart`. -/
def getOrCreateActiveCart (db : DB) (userId : Option Nat) (guestId : Option String) :
    DB × Except String Cart :=
  if userId.isNone && guestId.isNone then
    (db, Except.error "Either userId or guestId must be provided")
  else
    match findActiveCart db userId guestId with
    | some cart => (db, Except.ok cart)
    | none =>
      let cart : Cart :=
        { cart_id := db.nextCartId
          user_id := userId
          guest_id := if userId.isSome then none else guestId
          status := "active" }
      ({ db with carts := db.carts ++ [cart], nextCartId := db.nextCartId + 1 },
        Except.ok cart)

/-- cart.service.js `removeCartItem`: looks the item up by id, requires an
active cart owned by the caller, deletes the item and every reservation of
its (cart_id, product_id) pair.  `cartItemId` is an `Option` because one
internal caller (see `addItemToCart`) passes no third argument. -/
def removeCartItem (db : DB) (userId : Option Nat) (guestId : Option String)
    (cartItemId : Option Nat) : DB × Except String Unit :=
  match cartItemId.bind (fun cid => db.cartItems.find? (fun it => it.cart_item_id == cid)) with
  | none => (db, Except.error "Cart item not found")
  | some item =>
    match db.carts.find? (fun c => c.cart_id == item.cart_id) with
    | none => (db, Except.error "Cart item not found")
    | some cart =>
      if cart.status != "active" then (db, Except.error "Cart item not found")
      else
        let isOwner := match userId with
          | some u => cart.user_id == some u
          | none => cart.guest_id == guestId
        if !isOwner then (db, Except.error "Cart item not found")
        else
          ({ db with
              cartItems := db.cartItems.filter
                (fun it => !(it.cart_item_id == item.cart_item_id)),
              stockReservations := db.stockReservations.filter
                (fun r => !(r.cart_id == item.cart_id && r.product_id == item.product_id)) },
            Except.ok ())

/-- `new Date(Date.now() + 30 * 60 * 1000)` of the cart flows. -/
def cartAddExpiry (now : Nat) : Nat := now + 30 * 60 * 1000

/-- The row transformer of the cart flows' `stockReservation.updateMany`:
rows of the (cart, product) pair that are still active get the new
quantity and a refreshed expiry; every other row is untouched. -/
def refreshReservation (cid pid : Nat) (newq : Int) (now : Nat)
    (r : StockReservation) : StockReservation :=
  if r.cart_id == cid && r.product_id == pid && now < r.expires_at
  then { r with quantity := newq, expires_at := cartAddExpiry now } else r

/-- cart.service.js `addItemToCart`.  Returns `none` on the remove path,
`some item` on the update and create paths. -/
def addItemToCart (db : DB) (now : Nat) (userId : Option Nat) (guestId : Option String)
    (productId : Nat) (quantity : Int) : DB × Except String (Option CartItem) :=
  match getOrCreateActiveCart db userId guestId with
  | (db0, Except.error e) => (db0, Except.error e)
  | (db0, Except.ok cart) =>
    match findProduct db0 productId with
    | none => (db0, Except.error "Product not found")
    | some product =>
      if !(product.active && product.visible) then (db0, Except.error "Product not found")
      else
        match db0.cartItems.find?
            (fun it => it.cart_id == cart.cart_id && it.product_id == productId) with
        | some existingItem =>
          let newQuantity := existingItem.quantity + quantity
          if newQuantity ≤ 0 then
            -- The source calls `removeCartItem(userId, existingItem.cart_item_id)`
            -- with only two arguments, so the cart_item_id lands in the guestId
            -- position and the cartItemId parameter is undefined.  The failing
            -- item lookup on the undefined id is reached before the (junk)
            -- guestId is ever compared, so that argument is passed as `none`.
            match removeCartItem db0 userId none none with
            | (db1, Except.error e) => (db1, Except.error e)
            | (db1, Except.ok _) => (db1, Except.ok none)
          else
            let available := product.stock_quantity - reservedQuantity db0 now productId
                              + existingItem.quantity
            if newQuantity > available then (db0, Except.error "Insufficient stock")
            else
              let expiresAt := cartAddExpiry now
              let db1 := { db0 with stockReservations := db0.stockReservations.map (refreshReservation cart.cart_id productId newQuantity now) }
              let updatedItem :=
                { existingItem with quantity := newQuantity, reserved_until := some expiresAt }
              let db2 := { db1 with cartItems := db1.cartItems.map (fun (it : CartItem) =>
                  if it.cart_item_id == existingItem.cart_item_id then updatedItem else it) }
              (db2, Except.ok (some updatedItem))
        | none =>
          if quantity ≤ 0 then
            (db0, Except.error "Quantity must be positive for new cart items")
          else
            let available := product.stock_quantity - reservedQuantity db0 now productId
            if quantity > available then (db0, Except.error "Insufficient stock")
            else
              let expiresAt := cartAddExpiry now
              let item : CartItem :=
                ⟨db0.nextCartItemId, cart.cart_id, productId, quantity, some expiresAt⟩
              let db1 := { db0 with cartItems := db0.cartItems ++ [item],
                                    nextCartItemId := db0.nextCartItemId + 1 }
              let db2 := { db1 with stockReservations := db1.stockReservations ++
                  [⟨cart.cart_id, productId, quantity, expiresAt⟩] }
              (db2, Except.ok (some item))

/-- cart.service.js `updateCartItem`: sets the quantity of a cart item and
refreshes the matching active reservations. -/
def updateCartItem (db : DB) (now : Nat) (userId : Option Nat) (guestId : Option String)
    (cartItemId : Nat) (quantity : Int) : DB × Except String CartItem :=
  match db.cartItems.find? (fun it => it.cart_item_id == cartItemId) with
  | none => (db, Except.error "Cart item not found")
  | some cartItem =>
    match db.carts.find? (fun c => c.cart_id == cartItem.cart_id) with
    | none => (db, Except.error "Cart item not found")
    | some cart =>
      if cart.status != "active" then (db, Except.error "Cart item not found")
      else
        let isOwner := match userId with
          | some u => cart.user_id == some u
          | none => cart.guest_id == guestId
        if !isOwner then (db, Except.error "Cart item not found")
        else
          match findProduct db cartItem.product_id with
          | none => (db, Except.error "Cart item not found")
          | some product =>
            let available := product.stock_quantity
                              - reservedQuantity db now cartItem.product_id
                              + cartItem.quantity
            if quantity > available then (db, Except.error "Insufficient stock")
            else
              let expiresAt := cartAddExpiry now
              let updatedItem :=
                { cartItem with quantity := quantity, reserved_until := some expiresAt }
              let db1 := { db with cartItems := db.cartItems.map (fun (it : CartItem) =>
                  if it.cart_item_id == cartItemId then updatedItem else it) }
              let db2 := { db1 with stockReservations := db1.stockReservations.map (refreshReservation cart.cart_id cartItem.product_id quantity now) }
              (db2, Except.ok updatedItem)

/-- One entry of the `orderItems` array built by the checkout validation
loop, before the order id exists. -/
structure OrderLine where
  product_id : Nat
  quantity : Int
  unit_price : Int
  subtotal : Int
deriving Repr, DecidableEq

/-- `stock_quantity − Σ(active reservations)` as computed at checkout. -/
def availableStock (db : DB) (now : Nat) (p : Product) : Int :=
  p.stock_quantity - reservedQuantity db now p.product_id

/-- The cart items of cart `cartId` (the `items` include). -/
def cartItemsOf (db : DB) (cartId : Nat) : List CartItem :=
  db.cartItems.filter (fun it => it.cart_id == cartId)

/-- The checkout validation loop of orders.service.js
`createOrderFromCart`: per line, re-reads the product, requires it active
and visible, requires `quantity ≤ available`, and snapshots the unit
price and subtotal. -/
def buildOrderLines (db : DB) (now : Nat) : List CartItem → Except String (List OrderLine)
  | [] => Except.ok []
  | item :: rest =>
    match findProduct db item.product_id with
    | none => Except.error "Product is no longer available"
    | some product =>
      if !(product.active && product.visible) then
        Except.error "Product is no longer available"
      else if item.quantity > availableStock db now product then
        Except.error "Insufficient stock"
      else
        match buildOrderLines db now rest with
        | Except.error e => Except.error e
        | Except.ok lines =>
          Except.ok (⟨item.product_id, item.quantity, product.price,
            product.price * item.quantity⟩ :: lines)

/-- `totalAmount`, accumulated over the validated lines. -/
def linesTotal (lines : List OrderLine) : Int :=
  lines.foldl (fun total l => total + l.subtotal) 0

/-- `new Date(Date.now() + 15 * 60 * 1000)`: the fixed payment-window TTL
of the reservations created at checkout. -/
def orderWindowExpiry (now : Nat) : Nat := now + 15 * 60 * 1000

/-- The Order row inserted by checkout: pending, frozen total, owner and
(for guests) the minted token. -/
def checkoutOrder (db : DB) (userId : Option Nat) (guestId : Option String)
    (freshToken : String) (lines : List OrderLine) : Order :=
  { order_id := db.nextOrderId
    user_id := userId
    guest_id := if userId.isSome then none else guestId
    order_token := if userId.isSome then none
                   else if guestId.isSome then some freshToken else none
    status := "pending"
    total_amount := linesTotal lines }

/-- The `prisma.$transaction` of checkout: insert Order and OrderItems,
mark the cart `ordered`, and create one payment-window reservation per
validated line.  The four writes touch independent tables, so the
source's sequence of updates equals this single compound state update. -/
def checkoutTx (db : DB) (now : Nat) (userId : Option Nat) (guestId : Option String)
    (freshToken : String) (cartId : Nat) (lines : List OrderLine) : DB :=
  { db with
      orders := db.orders ++ [checkoutOrder db userId guestId freshToken lines],
      orderItems := db.orderItems ++ lines.map (fun l =>
        OrderItem.mk db.nextOrderId l.product_id l.quantity l.unit_price l.subtotal),
      nextOrderId := db.nextOrderId + 1,
      carts := db.carts.map (fun (c : Cart) =>
        if c.cart_id == cartId then { c with status := "ordered" } else c),
      stockReservations := db.stockReservations ++ lines.map (fun l =>
        StockReservation.mk cartId l.product_id l.quantity (orderWindowExpiry now)) }

/-- orders.service.js `createOrderFromCart`.  `freshToken` stands for the
`randomUUID()` result minted for guest orders.  The validation loop runs
first; the transaction (`checkoutTx`) is entered only after validation
succeeded, so an error leaves the state untouched. -/
def createOrderFromCart (db : DB) (now : Nat) (userId : Option Nat) (guestId : Option String)
    (freshToken : String) : DB × Except String Order :=
  match findActiveCart db userId guestId with
  | none => (db, Except.error "Cart is empty")
  | some cart =>
    if (cartItemsOf db cart.cart_id).isEmpty then (db, Except.error "Cart is empty")
    else
      match buildOrderLines db now (cartItemsOf db cart.cart_id) with
      | Except.error e => (db, Except.error e)
      | Except.ok lines =>
        (checkoutTx db now userId guestId freshToken cart.cart_id lines,
          Except.ok (checkoutOrder db userId guestId freshToken lines))

/-- The PayU webhook payload fields the handler reads. -/
structure Webhook where
  state_pol : String
  transaction_id : Option String
  reference_sale : Option String
deriving Repr, DecidableEq

/-- `payment.findFirst({ where: { OR: [{ payu_transaction_id: tid }] } })`.
When the payload carries no transaction id, Prisma drops the undefined
filter and the OR clause matches every row, so `findFirst` yields the
first payment. -/
def findPaymentByTransaction (db : DB) (tid : Option String) : Option Payment :=
  match tid with
  | none => db.payments.head?
  | some t => db.payments.find? (fun p => p.payu_transaction_id == some t)

/-- The PayU state mapping: payment status, and the order status to write
when the payment reached a non-pending outcome. -/
def payuStatusMap (state_pol : String) : String × Option String :=
  if state_pol == "4" then ("approved", some "paid")
  else if state_pol == "6" || state_pol == "5" then ("declined", some "cancelled")
  else if state_pol == "7" then ("pending", none)
  else ("error", some "cancelled")

/-- `payment.update({ data: { status } })`. -/
def updatePaymentStatus (db : DB) (paymentId : Nat) (st : String) : DB :=
  { db with payments := db.payments.map (fun (p : Payment) =>
      if p.payment_id == paymentId then { p with status := st } else p) }

/-- `order.update({ data: { status } })`. -/
def updateOrderStatus (db : DB) (orderId : Nat) (st : String) : DB :=
  { db with orders := db.orders.map (fun (o : Order) =>
      if o.order_id == orderId then { o with status := st } else o) }

/-- The order items of order `orderId`. -/
def orderItemsOf (db : DB) (orderId : Nat) : List OrderItem :=
  db.orderItems.filter (fun it => it.order_id == orderId)

/-- The `orderItem.findMany({ include: { product } })` of the approved
branch: each line is paired with its product's stock as it stands when
the query runs, before any decrement of the loop. -/
def snapshotItems (db : DB) (orderId : Nat) : Except String (List (OrderItem × Int)) :=
  (orderItemsOf db orderId).mapM (fun it =>
    match findProduct db it.product_id with
    | some p => Except.ok (it, p.stock_quantity)
    | none => Except.error "missing product relation")

/-- The per-line loop of the approved branch: checks each line's quantity
against the snapshot stock, decrements the live stock and appends one
exit movement.  (The source interpolates the order id into the reason;
ids are dropped from strings throughout this embedding.) -/
def applyOrderExits (reason : String) : DB → List (OrderItem × Int) → Except String DB
  | db, [] => Except.ok db
  | db, (item, snapshotStock) :: rest =>
    if item.quantity > snapshotStock then
      Except.error "Insufficient stock for product"
    else
      let db1 := updateStock db item.product_id (fun s => s - item.quantity)
      let db2 := appendMovement db1 ⟨item.product_id, "exit", item.quantity, reason⟩
      applyOrderExits reason db2 rest

/-- The cart lookup of the webhook: the first cart of the order's owner
whose status is `ordered`. -/
def findCartOrderedFor (db : DB) (o : Order) : Option Cart :=
  match o.user_id with
  | some u => db.carts.find? (fun c => c.user_id == some u && c.status == "ordered")
  | none =>
    match o.guest_id with
    | some g => db.carts.find? (fun c => c.guest_id == some g && c.status == "ordered")
    | none => none

/-- `stockReservation.deleteMany({ where: { cart_id } })`. -/
def deleteReservationsOfCart (db : DB) (cartId : Nat) : DB :=
  { db with stockReservations :=
      db.stockReservations.filter (fun r => !(r.cart_id == cartId)) }

/-- The reservation cleanup at the end of both webhook transaction
branches: `if (cart) deleteMany({ where: { cart_id } })`. -/
def webhookFinalize (db2 : DB) (o : Order) : DB :=
  match findCartOrderedFor db2 o with
  | some cart => deleteReservationsOfCart db2 cart.cart_id
  | none => db2

/-- The `prisma.$transaction` body of the webhook, given the state after
the payment status write (`db1`).  The order status is written first; the
approved branch snapshots the order items with their product stock,
re-checks and decrements per line, and releases the cart reservations;
the declined/expired branch only releases; on a thrown error the
transaction's writes roll back to `db1`. -/
def webhookTx (db1 : DB) (payment : Payment) (order : Order)
    (state_pol orderStatusUpdate : String) : DB × Except String String :=
  if state_pol == "4" then
    match snapshotItems (updateOrderStatus db1 payment.order_id orderStatusUpdate)
        payment.order_id with
    | Except.error e => (db1, Except.error e)
    | Except.ok snap =>
      match applyOrderExits "ORDER_PAID"
          (updateOrderStatus db1 payment.order_id orderStatusUpdate) snap with
      | Except.error e => (db1, Except.error e)
      | Except.ok db3 =>
        (webhookFinalize db3 order, Except.ok "Webhook processed successfully")
  else if state_pol == "6" || state_pol == "5" then
    (webhookFinalize (updateOrderStatus db1 payment.order_id orderStatusUpdate) order,
      Except.ok "Webhook processed successfully")
  else
    (updateOrderStatus db1 payment.order_id orderStatusUpdate,
      Except.ok "Webhook processed successfully")

/-- payments.service.js `processWebhook`.  The payment status is written
before the `prisma.$transaction` (`webhookTx`); payloads with no
transaction reference are accepted as no-ops; a payload whose transaction
matches no payment is a thrown `Payment not found`. -/
def processWebhook (db : DB) (w : Webhook) : DB × Except String String :=
  if w.transaction_id.isNone && w.reference_sale.isNone then
    (db, Except.ok "Event not processed")
  else
    match findPaymentByTransaction db w.transaction_id with
    | none => (db, Except.error "Payment not found")
    | some payment =>
      -- `include: { order: true }` captures the order row at lookup time;
      -- only its immutable owner columns are read later.
      match db.orders.find? (fun o => o.order_id == payment.order_id) with
      | none => (db, Except.error "Order relation missing")
      | some order =>
        match (payuStatusMap w.state_pol).2 with
        | none =>
          (updatePaymentStatus db payment.payment_id (payuStatusMap w.state_pol).1,
            Except.ok "Webhook processed successfully")
        | some orderStatusUpdate =>
          webhookTx (updatePaymentStatus db payment.payment_id (payuStatusMap w.state_pol).1)
            payment order w.state_pol orderStatusUpdate

/-- The number of active (non-expired) reservations of one
(cart_id, product_id) pair. -/
def activePairCount (db : DB) (now : Nat) (cid : Nat) (pid : Nat) : Nat :=
  (db.stockReservations.filter
    (fun r => r.cart_id == cid && r.product_id == pid && now < r.expires_at)).length

/-- The invariant of §3 of the spec: at most one active reservation per
(cart_id, product_id) pair.  Quantified over the rows present, which is
equivalent to quantifying over all pairs (absent pairs have count 0) and
keeps the predicate decidable. -/
def AtMostOneActive (db : DB) (now : Nat) : Prop :=
  ∀ r ∈ db.stockReservations, activePairCount db now r.cart_id r.product_id ≤ 1

/-- Every active reservation of an active cart has a matching cart item.
The cart flows maintain this coupling: item and reservation are created,
updated and deleted together. -/
def ReservationHasItem (db : DB) (now : Nat) : Prop :=
  ∀ r ∈ db.stockReservations, now < r.expires_at →
    ∀ c ∈ db.carts, c.cart_id = r.cart_id → c.status = "active" →
      ∃ it ∈ db.cartItems, it.cart_id = r.cart_id ∧ it.product_id = r.product_id

/-- No reservation row references a cart id the auto-increment counter has
not yet produced. -/
def ReservationIdsFresh (db : DB) : Prop :=
  ∀ r ∈ db.stockReservations, r.cart_id < db.nextCartId

instance instDecidableAtMostOneActive (db : DB) (now : Nat) :
    Decidable (AtMostOneActive db now) :=
  decidable_of_iff
    (∀ r ∈ db.stockReservations, activePairCount db now r.cart_id r.product_id ≤ 1)
    Iff.rfl

instance instDecidableReservationHasItem (db : DB) (now : Nat) :
    Decidable (ReservationHasItem db now) :=
  decidable_of_iff
    (∀ r ∈ db.stockReservations, now < r.expires_at →
      ∀ c ∈ db.carts, c.cart_id = r.cart_id → c.status = "active" →
        ∃ it ∈ db.cartItems, it.cart_id = r.cart_id ∧ it.product_id = r.product_id)
    Iff.rfl

instance instDecidableReservationIdsFresh (db : DB) :
    Decidable (ReservationIdsFresh db) :=
  decidable_of_iff (∀ r ∈ db.stockReservations, r.cart_id < db.nextCartId) Iff.rfl

/-- The order line the checkout loop produces for one cart item, given
the product catalog at validation time (price snapshot). -/
def lineOf (db : DB) (it : CartItem) : OrderLine :=
  match findProduct db it.product_id with
  | some p => ⟨it.product_id, it.quantity, p.price, p.price * it.quantity⟩
  | none => ⟨it.product_id, it.quantity, 0, 0⟩

/-- A cart line passes checkout validation: its product exists, is active
and visible, and the line quantity fits into the available stock. -/
def LineValid (db : DB) (now : Nat) (it : CartItem) : Prop :=
  ∃ p, findProduct db it.product_id = some p ∧ p.active = true ∧ p.visible = true ∧
    it.quantity ≤ availableStock db now p

/-- Fixture for claim C1: one product with stock 10, an ordered cart, a
pending order of one line of quantity 2, and its pending payment. -/
def dbC1 : DB :=
  ⟨[⟨1, 10, 5, true, true⟩], [], [], [⟨1, some 1, none, "ordered"⟩], [],
    [⟨1, some 1, none, none, "pending", 10⟩], [⟨1, 1, 2, 5, 10⟩],
    [⟨1, 1, some "t1", "pending"⟩], 2, 1, 2⟩

/-- The approved PayU notification for transaction t1. -/
def wApproved : Webhook := ⟨"4", some "t1", none⟩

/-- Fixture for claim C2: like `dbC1` but the order line asks for 5 units
while only 3 are on hand, so the per-line re-check must fail. -/
def dbC2 : DB :=
  ⟨[⟨1, 3, 5, true, true⟩], [], [], [⟨1, some 1, none, "ordered"⟩], [],
    [⟨1, some 1, none, none, "pending", 25⟩], [⟨1, 1, 5, 5, 25⟩],
    [⟨1, 1, some "t1", "pending"⟩], 2, 1, 2⟩

/-- Fixture for claim C7: a pending payment whose order-window reservation
of 2 units is still active. -/
def dbC7 : DB :=
  ⟨[⟨1, 10, 5, true, true⟩], [], [⟨1, 1, 2, 999999999⟩],
    [⟨1, some 1, none, "ordered"⟩], [],
    [⟨1, some 1, none, none, "pending", 10⟩], [⟨1, 1, 2, 5, 10⟩],
    [⟨1, 1, some "t1", "pending"⟩], 2, 1, 2⟩

/-- Fixture for claim C6: a lone product with stock 10 and an empty store. -/
def dbC6 : DB := ⟨[⟨1, 10, 5, true, true⟩], [], [], [], [], [], [], [], 1, 1, 1⟩

/-- The state claim C6 is refuted at: user 1 adds 3 units of product 1 to a
fresh cart and then checks the cart out. -/
def dbC6reached : DB :=
  (createOrderFromCart (addItemToCart dbC6 0 (some 1) none 1 3).1 0 (some 1) none "tok").1

/-- Fixture for claim C8: an active cart of user 1 holding cart item 5
(2 units of product 1) together with its active reservation. -/
def dbC8 : DB :=
  ⟨[⟨1, 10, 5, true, true⟩], [], [⟨1, 1, 2, 999999999⟩],
    [⟨1, some 1, none, "active"⟩],
    [⟨5, 1, 1, 2, some 999999999⟩], [], [], [], 2, 6, 1⟩

/-- Fixture for claim C4: a product with zero stock. -/
def dbC4 : DB := ⟨[⟨1, 0, 5, true, true⟩], [], [], [], [], [], [], [], 1, 1, 1⟩

/-- Fixture for claim C5: two reservations already expired at time 100
(for products 1 and 2) and one still active. -/
def dbC5 : DB :=
  ⟨[⟨1, 10, 5, true, true⟩, ⟨2, 7, 3, true, true⟩], [],
    [⟨1, 1, 2, 100⟩, ⟨2, 2, 3, 50⟩, ⟨1, 2, 4, 5000⟩],
    [], [], [], [], [], 3, 1, 1⟩

/-- Fixture for claim C10: two expired reservations of product 1 (2 and
3 units) and an active one of product 2. -/
def dbC10 : DB :=
  ⟨[⟨1, 10, 5, true, true⟩, ⟨2, 7, 3, true, true⟩], [],
    [⟨1, 1, 2, 100⟩, ⟨2, 1, 3, 80⟩, ⟨1, 2, 4, 5000⟩],
    [], [], [], [], [], 3, 1, 1⟩

/-- Fixture for claim C3, success case: an active cart of user 1 holding
2 units of product 1 (stock 5, price 7). -/
def dbC3 : DB :=
  ⟨[⟨1, 5, 7, true, true⟩], [], [], [⟨1, some 1, none, "active"⟩],
    [⟨1, 1, 1, 2, none⟩], [], [], [], 2, 2, 1⟩

/-- Fixture for claim C3, failure case: user 1 has no cart at all. -/
def dbC3e : DB := ⟨[⟨1, 5, 7, true, true⟩], [], [], [], [], [], [], [], 1, 1, 1⟩

/-- Fixture for claim C9: a product with stock 5. -/
def dbC9 : DB := ⟨[⟨1, 5, 5, true, true⟩], [], [], [], [], [], [], [], 1, 1, 1⟩

/-- Claim C1.  The handler has no terminal-status check: delivering the
identical approved webhook a second time is not a no-op.  On `dbC1` the
first delivery decrements the stock from 10 to 8 and appends one exit
movement; the replay succeeds again, decrements the stock to 6 and
appends a second exit movement, refuting idempotence. -/
theorem webhook_replay_decrements_stock_twice :
  (processWebhook dbC1 wApproved).2 = Except.ok "Webhook processed successfully" ∧
  (processWebhook dbC1 wApproved).1.products = [⟨1, 8, 5, true, true⟩] ∧
  (processWebhook (processWebhook dbC1 wApproved).1 wApproved).2
      = Except.ok "Webhook processed successfully" ∧
  (processWebhook (processWebhook dbC1 wApproved).1 wApproved).1.products
      = [⟨1, 6, 5, true, true⟩] ∧
  (processWebhook (processWebhook dbC1 wApproved).1 wApproved).1.stockMovements
      = [⟨1, "exit", 2, "ORDER_PAID"⟩, ⟨1, "exit", 2, "ORDER_PAID"⟩] :=
  ⟨rfl, rfl, rfl, rfl, rfl⟩

/-- Claim C2.  The Payment status write happens before the transaction and
is not rolled back: on `dbC2` the per-line re-check fails (5 requested,
3 on hand), the stock, order and reservation writes abort, but the
Payment is left `approved` — not marked `error` as the claim states. -/
theorem webhook_recheck_failure_keeps_payment_approved :
  (processWebhook dbC2 wApproved).2 = Except.error "Insufficient stock for product" ∧
  (processWebhook dbC2 wApproved).1.payments
      = [⟨1, 1, some "t1", "approved"⟩] ∧
  (processWebhook dbC2 wApproved).1.products = dbC2.products ∧
  (processWebhook dbC2 wApproved).1.orders = dbC2.orders ∧
  (processWebhook dbC2 wApproved).1.stockMovements = [] :=
  ⟨rfl, rfl, rfl, rfl, rfl⟩

/-- Claim C7, counterexample.  A webhook whose provider state is unknown
(here "99") maps to payment `error` and order `cancelled`, but the
reservation-release block only runs for states "5" and "6": the order's
cart keeps its reservation, refuting the claim for the error case. -/
theorem webhook_error_branch_keeps_reservations :
  (processWebhook dbC7 ⟨"99", some "t1", none⟩).2
      = Except.ok "Webhook processed successfully" ∧
  (processWebhook dbC7 ⟨"99", some "t1", none⟩).1.payments
      = [⟨1, 1, some "t1", "error"⟩] ∧
  (processWebhook dbC7 ⟨"99", some "t1", none⟩).1.orders
      = [⟨1, some 1, none, none, "cancelled", 10⟩] ∧
  (processWebhook dbC7 ⟨"99", some "t1", none⟩).1.stockReservations
      = [⟨1, 1, 2, 999999999⟩] :=
  ⟨rfl, rfl, rfl, rfl⟩

/-- Claim C6, counterexample.  Checkout creates its order-window
reservation with `create`, not upsert, while the add-to-cart reservation
of the same (cart, product) pair is still active: after add (3 units)
followed by checkout, the pair (cart 1, product 1) has two active
reservations. -/
theorem checkout_creates_second_active_reservation :
  activePairCount dbC6reached 0 1 1 = 2 ∧ ¬ AtMostOneActive dbC6reached 0 :=
  ⟨rfl, by decide⟩

/-- Claim C8.  The quantity-to-zero path calls
`removeCartItem(userId, existingItem.cart_item_id)` with the item id in
the guestId position and no third argument, so the lookup fails: instead
of removing the item and its reservation, the call errors and the state
is unchanged. -/
theorem addItem_nonpositive_total_errors_instead_of_removing :
  addItemToCart dbC8 0 (some 1) none 1 (-2)
      = (dbC8, Except.error "Cart item not found") :=
  rfl

/-- Claim C4, counterexample.  The service never validates the sign of
the quantity: an `entry` movement of −1 on a product with zero stock
succeeds and drives `stock_quantity` to −1, refuting the claim that
stock can never become negative. -/
theorem entry_negative_quantity_drives_stock_negative :
  (createStockMovement dbC4 1 "entry" (-1) "r").2
      = Except.ok ⟨1, "entry", -1, "r"⟩ ∧
  (createStockMovement dbC4 1 "entry" (-1) "r").1.products
      = [⟨1, -1, 5, true, true⟩] :=
  ⟨rfl, rfl⟩

theorem find?_cons_true {α : Type} (p : α → Bool) (a : α) (l : List α)
    (h : p a = true) : (a :: l).find? p = some a := by
  simp [List.find?, h]

theorem find?_cons_false {α : Type} (p : α → Bool) (a : α) (l : List α)
    (h : p a = false) : (a :: l).find? p = l.find? p := by
  simp [List.find?, h]

theorem find?_map_updateRow (l : List Product) (pid : Nat) (f : Int → Int) (p : Product)
    (hp : l.find? (fun x => x.product_id == pid) = some p) :
    (l.map (fun x => if x.product_id == pid
        then { x with stock_quantity := f x.stock_quantity } else x)).find?
        (fun x => x.product_id == pid)
      = some { p with stock_quantity := f p.stock_quantity } := by
  induction l with
  | nil => simp at hp
  | cons a t ih =>
    rw [List.map_cons]
    by_cases ha : (a.product_id == pid) = true
    · rw [find?_cons_true (fun (x : Product) => x.product_id == pid) a t ha] at hp
      obtain rfl : a = p := by injection hp
      rw [if_pos ha]
      exact find?_cons_true (fun (x : Product) => x.product_id == pid) _ _ ha
    · have ha2 : (a.product_id == pid) = false := by
        cases h2 : (a.product_id == pid) with
        | true => exact absurd h2 ha
        | false => rfl
      rw [find?_cons_false (fun (x : Product) => x.product_id == pid) a t ha2] at hp
      rw [if_neg ha]
      rw [find?_cons_false (fun (x : Product) => x.product_id == pid) a _ ha2]
      exact ih hp

theorem findProduct_updateStock (db : DB) (pid : Nat) (f : Int → Int) (p : Product)
    (hp : findProduct db pid = some p) :
    findProduct (updateStock db pid f) pid
      = some { p with stock_quantity := f p.stock_quantity } :=
  find?_map_updateRow db.products pid f p hp

theorem createStockMovement_entry_eq (db : DB) (pid : Nat) (q : Int) (reason : String)
    (p : Product) (hp : findProduct db pid = some p) :
    createStockMovement db pid "entry" q reason
      = (appendMovement (updateStock db pid (fun s => s + q)) ⟨pid, "entry", q, reason⟩,
          Except.ok ⟨pid, "entry", q, reason⟩) := by
  unfold createStockMovement
  rw [hp]
  rfl

theorem createStockMovement_exit_ok_eq (db : DB) (pid : Nat) (q : Int) (reason : String)
    (p : Product) (hp : findProduct db pid = some p)
    (hq : ¬ p.stock_quantity < q) :
    createStockMovement db pid "exit" q reason
      = (appendMovement (updateStock db pid (fun s => s - q)) ⟨pid, "exit", q, reason⟩,
          Except.ok ⟨pid, "exit", q, reason⟩) := by
  unfold createStockMovement
  rw [hp]
  show (if p.stock_quantity < q then _ else _) = _
  rw [if_neg hq]

theorem createStockMovement_exit_err_eq (db : DB) (pid : Nat) (q : Int) (reason : String)
    (p : Product) (hp : findProduct db pid = some p)
    (hq : p.stock_quantity < q) :
    createStockMovement db pid "exit" q reason
      = (db, Except.error "Insufficient stock for exit movement") := by
  unfold createStockMovement
  rw [hp]
  show (if p.stock_quantity < q then _ else _) = _
  rw [if_pos hq]

/-- Claim C9.  `createStockMovement` never validates the sign of the
quantity: an `exit` of quantity q ≤ 0 against a product with nonnegative
stock passes the insufficiency guard, succeeds, raises (or for q = 0
leaves unchanged) the stock by −q, and appends an `exit` movement with
that non-positive quantity to the audit log. -/
theorem exit_nonpositive_quantity_increases_stock (db : DB) (pid : Nat) (q : Int)
    (reason : String) (p : Product) (hp : findProduct db pid = some p)
    (hq : q ≤ 0) (hs : 0 ≤ p.stock_quantity) :
    (createStockMovement db pid "exit" q reason).2
        = Except.ok ⟨pid, "exit", q, reason⟩ ∧
    findProduct (createStockMovement db pid "exit" q reason).1 pid
        = some { p with stock_quantity := p.stock_quantity - q } ∧
    p.stock_quantity ≤ p.stock_quantity - q ∧
    (createStockMovement db pid "exit" q reason).1.stockMovements
        = db.stockMovements ++ [⟨pid, "exit", q, reason⟩] := by
  have hguard : ¬ p.stock_quantity < q := by omega
  rw [createStockMovement_exit_ok_eq db pid q reason p hp hguard]
  refine ⟨rfl, ?_, by omega, rfl⟩
  exact findProduct_updateStock db pid (fun s => s - q) p hp

/-- Witness for claim C9 at a product with stock 5 and quantity −3. -/
theorem exit_nonpositive_quantity_witness :
    (createStockMovement dbC9 1 "exit" (-3) "r").2
        = Except.ok ⟨1, "exit", -3, "r"⟩ ∧
    findProduct (createStockMovement dbC9 1 "exit" (-3) "r").1 1
        = some ⟨1, 8, 5, true, true⟩ ∧
    (5 : Int) ≤ 8 ∧
    (createStockMovement dbC9 1 "exit" (-3) "r").1.stockMovements
        = [⟨1, "exit", -3, "r"⟩] :=
  exit_nonpositive_quantity_increases_stock dbC9 1 (-3) "r" ⟨1, 5, 5, true, true⟩
    rfl (by decide) (by decide)

/-- Claim C4, amended.  For an existing product and a movement type that
is `entry` or `exit`: the call fails with the insufficient-stock error
exactly when the type is `exit` and the quantity exceeds the product's
stock; otherwise it increments (`entry`) or decrements (`exit`) the
stock, appends exactly one movement row and touches nothing else; and
when the requested quantity is nonnegative the resulting stock stays
nonnegative. -/
theorem createStockMovement_spec (db : DB) (pid : Nat) (mtype : String) (q : Int)
    (reason : String) (p : Product) (hp : findProduct db pid = some p)
    (hm : mtype = "entry" ∨ mtype = "exit") :
    ((createStockMovement db pid mtype q reason).2
        = Except.error "Insufficient stock for exit movement"
      ↔ mtype = "exit" ∧ p.stock_quantity < q) ∧
    (¬ (mtype = "exit" ∧ p.stock_quantity < q) →
      (createStockMovement db pid mtype q reason).2
          = Except.ok ⟨pid, mtype, q, reason⟩ ∧
      (createStockMovement db pid mtype q reason).1.stockMovements
          = db.stockMovements ++ [⟨pid, mtype, q, reason⟩] ∧
      findProduct (createStockMovement db pid mtype q reason).1 pid
          = some { p with stock_quantity :=
              if mtype = "exit" then p.stock_quantity - q else p.stock_quantity + q } ∧
      (createStockMovement db pid mtype q reason).1.stockReservations
          = db.stockReservations ∧
      (0 ≤ q → 0 ≤ p.stock_quantity →
        0 ≤ (if mtype = "exit" then p.stock_quantity - q else p.stock_quantity + q))) := by
  rcases hm with hm | hm
  · subst hm
    rw [createStockMovement_entry_eq db pid q reason p hp]
    constructor
    · constructor
      · intro h
        exact absurd h (by simp)
      · rintro ⟨h, -⟩
        exact absurd h (by decide)
    · intro _
      refine ⟨rfl, rfl, ?_, rfl, ?_⟩
      · rw [if_neg (by decide : ¬ ("entry" : String) = "exit")]
        exact findProduct_updateStock db pid (fun s => s + q) p hp
      · rw [if_neg (by decide : ¬ ("entry" : String) = "exit")]
        omega
  · subst hm
    by_cases hq : p.stock_quantity < q
    · rw [createStockMovement_exit_err_eq db pid q reason p hp hq]
      constructor
      · simp [hq]
      · intro h
        exact absurd ⟨rfl, hq⟩ h
    · rw [createStockMovement_exit_ok_eq db pid q reason p hp hq]
      constructor
      · constructor
        · intro h
          exact absurd h (by simp)
        · rintro ⟨-, h⟩
          exact absurd h hq
      · intro _
        refine ⟨rfl, rfl, ?_, rfl, ?_⟩
        · rw [if_pos rfl]
          exact findProduct_updateStock db pid (fun s => s - q) p hp
        · rw [if_pos rfl]
          omega

/-- Witness for the amended claim C4: an `exit` of 3 units on stock 5
succeeds, decrements to 2, and appends one movement. -/
theorem createStockMovement_spec_witness :
    ¬ ((createStockMovement dbC9 1 "exit" 3 "sale").2
        = Except.error "Insufficient stock for exit movement") ∧
    (createStockMovement dbC9 1 "exit" 3 "sale").2
        = Except.ok ⟨1, "exit", 3, "sale"⟩ ∧
    (createStockMovement dbC9 1 "exit" 3 "sale").1.stockMovements
        = [⟨1, "exit", 3, "sale"⟩] ∧
    findProduct (createStockMovement dbC9 1 "exit" 3 "sale").1 1
        = some ⟨1, 2, 5, true, true⟩ ∧
    (0 : Int) ≤ 2 := by
  have h := createStockMovement_spec dbC9 1 "exit" 3 "sale" ⟨1, 5, 5, true, true⟩
    rfl (Or.inr rfl)
  have hno : ¬ (("exit" : String) = "exit" ∧ (5 : Int) < 3) := by
    rintro ⟨-, h2⟩
    exact absurd h2 (by decide)
  obtain ⟨hok, hmv, hfp, -, hnn⟩ := h.2 hno
  refine ⟨?_, hok, hmv, hfp, hnn (by decide) (by decide)⟩
  intro he
  rw [he] at hok
  cases hok

theorem length_filter_add_length_filter_not {α : Type} (l : List α) (p : α → Bool) :
    (l.filter p).length + (l.filter (fun a => !(p a))).length = l.length := by
  induction l with
  | nil => rfl
  | cons a t ih =>
    by_cases h : p a = true <;> simp [List.filter_cons, h] <;> omega

/-- Claim C5.  The sweep deletes exactly the reservations whose stored
`expires_at` is ≤ now; the returned count equals the number of expired
rows, which is the number removed; products (hence every stock quantity)
are untouched; and the delete is predicated on the stored `expires_at` of
the state it runs against, so in any reservation state — in particular
one where a reservation was refreshed into the future after the scan — a
non-expired row survives the delete. -/
theorem cleanupExpiredReservations_spec (db : DB) (now : Nat) :
    (cleanupExpiredReservations db now).1.stockReservations
        = db.stockReservations.filter (fun r => !(r.expires_at ≤ now)) ∧
    (cleanupExpiredReservations db now).2
        = (db.stockReservations.filter (fun r => r.expires_at ≤ now)).length ∧
    (cleanupExpiredReservations db now).2
        + (cleanupExpiredReservations db now).1.stockReservations.length
        = db.stockReservations.length ∧
    (cleanupExpiredReservations db now).1.products = db.products ∧
    (∀ rs2 : List StockReservation, ∀ r ∈ rs2, now < r.expires_at →
      r ∈ sweepDelete rs2 now) := by
  have hrace : ∀ rs2 : List StockReservation, ∀ r ∈ rs2, now < r.expires_at →
      r ∈ sweepDelete rs2 now := by
    intro rs2 r hr hact
    refine List.mem_filter.2 ⟨hr, ?_⟩
    simp only [Bool.not_eq_true']
    simpa using Nat.not_le.2 hact
  have key : cleanupExpiredReservations db now =
      (if (db.stockReservations.filter (fun r => r.expires_at ≤ now)).isEmpty
        then (db, 0)
        else ({ db with
            stockMovements := db.stockMovements
              ++ sweepMovements (db.stockReservations.filter (fun r => r.expires_at ≤ now)),
            stockReservations := sweepDelete db.stockReservations now },
          (db.stockReservations.filter (fun r => r.expires_at ≤ now)).length)) := rfl
  rw [key]
  by_cases hE : (db.stockReservations.filter (fun r => r.expires_at ≤ now)).isEmpty
  · rw [if_pos hE]
    have hnil : db.stockReservations.filter (fun r => r.expires_at ≤ now) = [] :=
      List.isEmpty_iff.1 hE
    have hall : ∀ r ∈ db.stockReservations, ¬ (r.expires_at ≤ now) := by
      intro r hr
      have h2 := List.filter_eq_nil_iff.1 hnil r hr
      simpa using h2
    refine ⟨?_, ?_, ?_, rfl, hrace⟩
    · refine (List.filter_eq_self.2 (fun r hr => ?_)).symm
      simp [hall r hr]
    · rw [hnil]
      rfl
    · simp
  · rw [if_neg hE]
    refine ⟨rfl, rfl, ?_, rfl, hrace⟩
    exact length_filter_add_length_filter_not db.stockReservations
      (fun r => decide (r.expires_at ≤ now))

/-- Witness for claim C5 on `dbC5` at time 100: the two expired rows are
removed, the count is 2, products are unchanged, and a reservation
refreshed to expire at 5000 survives a delete at time 100. -/
theorem cleanupExpiredReservations_witness :
    (cleanupExpiredReservations dbC5 100).1.stockReservations = [⟨1, 2, 4, 5000⟩] ∧
    (cleanupExpiredReservations dbC5 100).2 = 2 ∧
    (cleanupExpiredReservations dbC5 100).1.products = dbC5.products ∧
    StockReservation.mk 1 2 4 5000 ∈ sweepDelete [⟨1, 1, 2, 100⟩, ⟨1, 2, 4, 5000⟩] 100 := by
  have h := cleanupExpiredReservations_spec dbC5 100
  refine ⟨h.1, h.2.1, h.2.2.2.1, ?_⟩
  exact h.2.2.2.2 [⟨1, 1, 2, 100⟩, ⟨1, 2, 4, 5000⟩] ⟨1, 2, 4, 5000⟩
    (by decide) (by decide)

theorem mem_sweepMovements (rs : List StockReservation) (m : StockMovement) :
    m ∈ sweepMovements rs
      ↔ ∃ pid, pid ∈ (rs.map (fun r => r.product_id)).dedup
          ∧ m = ⟨pid, "entry", expiredSum rs pid, "RESERVATION_EXPIRED"⟩ := by
  unfold sweepMovements
  constructor
  · intro hm
    obtain ⟨pid, hpid, rfl⟩ := List.mem_map.1 hm
    exact ⟨pid, hpid, rfl⟩
  · rintro ⟨pid, hpid, rfl⟩
    exact List.mem_map.2 ⟨pid, hpid, rfl⟩

theorem sweepMovements_count_le_one (rs : List StockReservation) (pid0 : Nat) :
    ((sweepMovements rs).filter (fun m => m.product_id == pid0)).length ≤ 1 := by
  unfold sweepMovements
  rw [← List.countP_eq_length_filter]
  rw [List.countP_map]
  have hcongr : ∀ pid ∈ (rs.map (fun r => r.product_id)).dedup,
      ((fun m => m.product_id == pid0) ∘
        (fun pid => (⟨pid, "entry", expiredSum rs pid,
          "RESERVATION_EXPIRED"⟩ : StockMovement))) pid = true
        ↔ (pid == pid0) = true := by
    intro pid _
    exact Iff.rfl
  rw [List.countP_congr hcongr]
  have hnd := List.nodup_dedup (rs.map (fun r => r.product_id))
  have := List.nodup_iff_count_le_one.1 hnd pid0
  simpa [List.count] using this

/-- Claim C10.  A sweep that removes at least one expired reservation
appends one `entry` movement per affected product — quantity equal to the
sum of that product's expired reserved quantities and reason
RESERVATION_EXPIRED — while the product rows (hence every
`stock_quantity`) stay unchanged, so the appended audit rows correspond
to no authoritative stock change. -/
theorem cleanup_appends_compensation_movements (db : DB) (now : Nat) :
    (cleanupExpiredReservations db now).1.products = db.products ∧
    ∃ appended,
      (cleanupExpiredReservations db now).1.stockMovements
          = db.stockMovements ++ appended ∧
      (db.stockReservations.filter (fun r => r.expires_at ≤ now) = [] →
        appended = []) ∧
      (∀ pid : Nat,
        ((∃ r ∈ db.stockReservations, r.expires_at ≤ now ∧ r.product_id = pid)
          ↔ ∃ m ∈ appended, m.product_id = pid)) ∧
      (∀ m ∈ appended, m.mtype = "entry" ∧ m.reason = "RESERVATION_EXPIRED" ∧
        m.quantity = expiredSum
          (db.stockReservations.filter (fun r => r.expires_at ≤ now)) m.product_id) ∧
      (∀ pid : Nat, (appended.filter (fun m => m.product_id == pid)).length ≤ 1) := by
  have key : cleanupExpiredReservations db now =
      (if (db.stockReservations.filter (fun r => r.expires_at ≤ now)).isEmpty
        then (db, 0)
        else ({ db with
            stockMovements := db.stockMovements
              ++ sweepMovements (db.stockReservations.filter (fun r => r.expires_at ≤ now)),
            stockReservations := sweepDelete db.stockReservations now },
          (db.stockReservations.filter (fun r => r.expires_at ≤ now)).length)) := rfl
  rw [key]
  by_cases hE : (db.stockReservations.filter (fun r => r.expires_at ≤ now)).isEmpty
  · rw [if_pos hE]
    have hnil : db.stockReservations.filter (fun r => r.expires_at ≤ now) = [] :=
      List.isEmpty_iff.1 hE
    have hall : ∀ r ∈ db.stockReservations, ¬ (r.expires_at ≤ now) := by
      intro r hr
      have h2 := List.filter_eq_nil_iff.1 hnil r hr
      simpa using h2
    refine ⟨rfl, [], by simp, fun _ => rfl, ?_, ?_, ?_⟩
    · intro pid
      constructor
      · rintro ⟨r, hr, hexp, -⟩
        exact absurd hexp (hall r hr)
      · rintro ⟨m, hm, -⟩
        exact absurd hm (List.not_mem_nil m)
    · intro m hm
      exact absurd hm (List.not_mem_nil m)
    · intro pid
      simp
  · rw [if_neg hE]
    refine ⟨rfl, sweepMovements (db.stockReservations.filter (fun r => r.expires_at ≤ now)),
      rfl, ?_, ?_, ?_, ?_⟩
    · intro hnil
      rw [hnil]
      rfl
    · intro pid
      constructor
      · rintro ⟨r, hr, hexp, rfl⟩
        refine ⟨⟨r.product_id, "entry",
          expiredSum (db.stockReservations.filter (fun r => r.expires_at ≤ now)) r.product_id,
          "RESERVATION_EXPIRED"⟩, ?_, rfl⟩
        refine (mem_sweepMovements _ _).2 ⟨r.product_id, ?_, rfl⟩
        rw [List.mem_dedup]
        exact List.mem_map.2 ⟨r, List.mem_filter.2 ⟨hr, by simpa using hexp⟩, rfl⟩
      · rintro ⟨m, hm, rfl⟩
        obtain ⟨pid, hpid, rfl⟩ := (mem_sweepMovements _ _).1 hm
        rw [List.mem_dedup] at hpid
        obtain ⟨r, hrf, rfl⟩ := List.mem_map.1 hpid
        have hr2 := List.mem_filter.1 hrf
        exact ⟨r, hr2.1, by simpa using hr2.2, rfl⟩
    · intro m hm
      obtain ⟨pid, hpid, rfl⟩ := (mem_sweepMovements _ _).1 hm
      exact ⟨rfl, rfl, rfl⟩
    · intro pid
      exact sweepMovements_count_le_one _ pid

/-- Witness for claim C10 on `dbC10` at time 100: the sweep records one
entry movement, it is for product 1, and it carries the summed expired
quantity with reason RESERVATION_EXPIRED. -/
theorem cleanup_compensation_witness :
    (cleanupExpiredReservations dbC10 100).1.products = dbC10.products ∧
    ∃ appended,
      (cleanupExpiredReservations dbC10 100).1.stockMovements
          = dbC10.stockMovements ++ appended ∧
      (∃ m ∈ appended, m.product_id = 1) ∧
      (∀ m ∈ appended, m.mtype = "entry" ∧ m.reason = "RESERVATION_EXPIRED" ∧
        m.quantity = expiredSum
          (dbC10.stockReservations.filter (fun r => r.expires_at ≤ 100)) m.product_id) := by
  obtain ⟨hprod, appended, happ, -, hiff, hfields, -⟩ :=
    cleanup_appends_compensation_movements dbC10 100
  refine ⟨hprod, appended, happ, ?_, hfields⟩
  exact (hiff 1).1 ⟨⟨1, 1, 2, 100⟩, by decide, by decide, rfl⟩

theorem findCartOrderedFor_only_carts (dbA dbB : DB) (o : Order)
    (h : dbA.carts = dbB.carts) :
    findCartOrderedFor dbA o = findCartOrderedFor dbB o := by
  unfold findCartOrderedFor
  rw [h]

/-- Claim C7, amended.  For a webhook reporting declined or expired
(state_pol 6 or 5) on a payment whose order and orderd cart are found:
the handler succeeds, deletes exactly the reservations of that cart,
performs no stock movement and leaves every product row unchanged, sets
the order to `cancelled` and the payment to `declined`, and touches no
cart or cart item.  (For unknown states the payment is marked `error`
and the order cancelled, but the reservations are not released — see the
counterexample.) -/
theorem webhook_declined_releases_reservations
    (db : DB) (w : Webhook) (payment : Payment) (order : Order) (cart : Cart)
    (hw : w.state_pol = "6" ∨ w.state_pol = "5")
    (htid : w.transaction_id.isSome = true)
    (hp : findPaymentByTransaction db w.transaction_id = some payment)
    (ho : db.orders.find? (fun o => o.order_id == payment.order_id) = some order)
    (hc : findCartOrderedFor db order = some cart) :
    (processWebhook db w).2 = Except.ok "Webhook processed successfully" ∧
    (processWebhook db w).1.stockReservations
        = db.stockReservations.filter (fun r => !(r.cart_id == cart.cart_id)) ∧
    (processWebhook db w).1.products = db.products ∧
    (processWebhook db w).1.stockMovements = db.stockMovements ∧
    (processWebhook db w).1.orders
        = db.orders.map (fun (o : Order) =>
            if o.order_id == payment.order_id then { o with status := "cancelled" } else o) ∧
    (processWebhook db w).1.payments
        = db.payments.map (fun (p : Payment) =>
            if p.payment_id == payment.payment_id then { p with status := "declined" } else p) ∧
    (processWebhook db w).1.carts = db.carts ∧
    (processWebhook db w).1.cartItems = db.cartItems := by
  obtain ⟨t, ht⟩ := Option.isSome_iff_exists.1 htid
  have hfin : ∀ s1 s2 : String,
      webhookFinalize (updateOrderStatus (updatePaymentStatus db payment.payment_id s1)
        payment.order_id s2) order
      = deleteReservationsOfCart (updateOrderStatus
          (updatePaymentStatus db payment.payment_id s1) payment.order_id s2)
          cart.cart_id := by
    intro s1 s2
    unfold webhookFinalize
    rw [show findCartOrderedFor (updateOrderStatus
        (updatePaymentStatus db payment.payment_id s1) payment.order_id s2) order
      = some cart from (findCartOrderedFor_only_carts _ db order rfl).trans hc]
  have key : processWebhook db w =
      (deleteReservationsOfCart
          (updateOrderStatus (updatePaymentStatus db payment.payment_id "declined")
            payment.order_id "cancelled") cart.cart_id,
        Except.ok "Webhook processed successfully") := by
    unfold processWebhook
    rw [ht] at hp ⊢
    rw [if_neg (by simp)]
    split
    · next heq =>
        rw [hp] at heq
        cases heq
    · next p2 heq =>
        rw [hp] at heq
        injection heq with heq
        subst heq
        split
        · next heq2 =>
            rw [ho] at heq2
            cases heq2
        · next o2 heq2 =>
            rw [ho] at heq2
            injection heq2 with heq2
            subst heq2
            rcases hw with hw | hw <;> rw [hw]
            · split
              · next hm =>
                  exact absurd hm (by decide)
              · next osu hm =>
                  obtain rfl : "cancelled" = osu :=
                    Option.some.inj (show some "cancelled" = some osu from hm)
                  unfold webhookTx
                  rw [if_neg (by decide), if_pos (by decide), hfin _ _]
                  rfl
            · split
              · next hm =>
                  exact absurd hm (by decide)
              · next osu hm =>
                  obtain rfl : "cancelled" = osu :=
                    Option.some.inj (show some "cancelled" = some osu from hm)
                  unfold webhookTx
                  rw [if_neg (by decide), if_pos (by decide), hfin _ _]
                  rfl
  rw [key]
  exact ⟨rfl, rfl, rfl, rfl, rfl, rfl, rfl, rfl⟩

/-- Witness for the amended claim C7: a declined (state 6) webhook on
`dbC7` releases the ordered cart's reservation, leaves stock and the
audit log alone, cancels the order and marks the payment declined. -/
theorem webhook_declined_witness :
    (processWebhook dbC7 ⟨"6", some "t1", none⟩).2
        = Except.ok "Webhook processed successfully" ∧
    (processWebhook dbC7 ⟨"6", some "t1", none⟩).1.stockReservations
        = dbC7.stockReservations.filter (fun r => !(r.cart_id == 1)) ∧
    (processWebhook dbC7 ⟨"6", some "t1", none⟩).1.products = dbC7.products ∧
    (processWebhook dbC7 ⟨"6", some "t1", none⟩).1.stockMovements
        = dbC7.stockMovements ∧
    (processWebhook dbC7 ⟨"6", some "t1", none⟩).1.orders
        = dbC7.orders.map (fun (o : Order) =>
            if o.order_id == 1 then { o with status := "cancelled" } else o) ∧
    (processWebhook dbC7 ⟨"6", some "t1", none⟩).1.payments
        = dbC7.payments.map (fun (p : Payment) =>
            if p.payment_id == 1 then { p with status := "declined" } else p) ∧
    (processWebhook dbC7 ⟨"6", some "t1", none⟩).1.carts = dbC7.carts ∧
    (processWebhook dbC7 ⟨"6", some "t1", none⟩).1.cartItems = dbC7.cartItems :=
  webhook_declined_releases_reservations dbC7 ⟨"6", some "t1", none⟩
    ⟨1, 1, some "t1", "pending"⟩ ⟨1, some 1, none, none, "pending", 10⟩
    ⟨1, some 1, none, "ordered"⟩ (Or.inl rfl) rfl rfl rfl rfl

theorem lineOf_product_id (db : DB) (it : CartItem) :
    (lineOf db it).product_id = it.product_id := by
  unfold lineOf
  cases findProduct db it.product_id <;> rfl

theorem lineOf_quantity (db : DB) (it : CartItem) :
    (lineOf db it).quantity = it.quantity := by
  unfold lineOf
  cases findProduct db it.product_id <;> rfl

theorem buildOrderLines_ok (db : DB) (now : Nat) (items : List CartItem)
    (lines : List OrderLine) (h : buildOrderLines db now items = Except.ok lines) :
    lines = items.map (lineOf db) ∧ ∀ it ∈ items, LineValid db now it := by
  induction items generalizing lines with
  | nil =>
    unfold buildOrderLines at h
    injection h with h
    subst h
    exact ⟨rfl, by simp⟩
  | cons it rest ih =>
    unfold buildOrderLines at h
    split at h
    · cases h
    · next p hp =>
      split at h
      · cases h
      · next hav =>
        split at h
        · cases h
        · next hqa =>
          split at h
          · cases h
          · next ls hbl =>
            injection h with h
            subst h
            obtain ⟨hls, hvalid⟩ := ih ls hbl
            have hav2 : (p.active && p.visible) = true := by
              simpa using hav
            have hhead : lineOf db it
                = ⟨it.product_id, it.quantity, p.price, p.price * it.quantity⟩ := by
              unfold lineOf
              rw [hp]
            constructor
            · rw [List.map_cons, hhead, hls]
            · intro x hx
              rcases List.mem_cons.1 hx with rfl | hx2
              · have h3 : p.active = true ∧ p.visible = true := by
                  simpa using hav2
                refine ⟨p, hp, h3.1, h3.2, ?_⟩
                simp only [gt_iff_lt, not_lt] at hqa
                exact hqa
              · exact hvalid x hx2

/-- Claim C3.  `createOrderFromCart` is all-or-nothing: on any error the
state is returned untouched — no order, no order items, no reservation,
cart unchanged (still active); on success every cart line passed
validation (product present, active and visible, quantity within
available stock at this instant), the pending order and its items — with
the unit price snapshotted from the product at validation time — are
appended, the cart transitions to `ordered`, and one reservation with
the fixed 15-minute payment TTL is created per line, while products,
movements and cart items stay untouched. -/
theorem createOrderFromCart_atomic (db : DB) (now : Nat) (u : Option Nat)
    (g : Option String) (tok : String) :
    (∀ dbE e, createOrderFromCart db now u g tok = (dbE, Except.error e) → dbE = db) ∧
    (∀ dbO ord, createOrderFromCart db now u g tok = (dbO, Except.ok ord) →
      ∃ cart, findActiveCart db u g = some cart ∧
        cartItemsOf db cart.cart_id ≠ [] ∧
        (∀ it ∈ cartItemsOf db cart.cart_id, LineValid db now it) ∧
        ord.status = "pending" ∧
        dbO.products = db.products ∧
        dbO.stockMovements = db.stockMovements ∧
        dbO.orders = db.orders ++ [ord] ∧
        dbO.orderItems = db.orderItems ++ (cartItemsOf db cart.cart_id).map (fun it =>
          OrderItem.mk db.nextOrderId it.product_id it.quantity
            ((lineOf db it).unit_price) ((lineOf db it).subtotal)) ∧
        (∀ it ∈ cartItemsOf db cart.cart_id, ∀ p,
          findProduct db it.product_id = some p →
          (lineOf db it).unit_price = p.price ∧
          (lineOf db it).subtotal = p.price * it.quantity) ∧
        dbO.carts = db.carts.map (fun (c : Cart) =>
          if c.cart_id == cart.cart_id then { c with status := "ordered" } else c) ∧
        dbO.stockReservations = db.stockReservations
          ++ (cartItemsOf db cart.cart_id).map (fun it =>
            StockReservation.mk cart.cart_id it.product_id it.quantity
              (now + 15 * 60 * 1000)) ∧
        dbO.cartItems = db.cartItems) := by
  constructor
  · intro dbE e h
    unfold createOrderFromCart at h
    split at h
    · injection h with h1 h2
      exact h1.symm
    · split at h
      · injection h with h1 h2
        exact h1.symm
      · split at h
        · injection h with h1 h2
          exact h1.symm
        · injection h with h1 h2
          cases h2
  · intro dbO ord h
    unfold createOrderFromCart at h
    split at h
    · injection h with h1 h2
      cases h2
    · next cart hfc =>
      split at h
      · injection h with h1 h2
        cases h2
      · next hne =>
        split at h
        · injection h with h1 h2
          cases h2
        · next lines hbl =>
          injection h with h1 h2
          injection h2 with h2
          subst h1
          subst h2
          obtain ⟨hls, hvalid⟩ := buildOrderLines_ok db now _ lines hbl
          refine ⟨cart, hfc, ?_, hvalid, rfl, rfl, rfl, rfl, ?_, ?_, rfl, ?_, rfl⟩
          · intro hnil
            rw [hnil] at hne
            exact hne rfl
          · show db.orderItems ++ lines.map _ = _
            rw [hls, List.map_map]
            refine congrArg (db.orderItems ++ ·) (List.map_congr_left ?_)
            intro it hit
            show OrderItem.mk db.nextOrderId (lineOf db it).product_id
              (lineOf db it).quantity (lineOf db it).unit_price (lineOf db it).subtotal = _
            rw [lineOf_product_id, lineOf_quantity]
          · intro it hit p hp
            have hl : lineOf db it
                = ⟨it.product_id, it.quantity, p.price, p.price * it.quantity⟩ := by
              unfold lineOf
              rw [hp]
            rw [hl]
            exact ⟨rfl, rfl⟩
          · show db.stockReservations ++ lines.map _ = _
            rw [hls, List.map_map]
            refine congrArg (db.stockReservations ++ ·) (List.map_congr_left ?_)
            intro it hit
            show StockReservation.mk cart.cart_id (lineOf db it).product_id
              (lineOf db it).quantity (orderWindowExpiry now) = _
            rw [lineOf_product_id, lineOf_quantity]
            rfl

/-- Witness for claim C3: a checkout with no active cart leaves the
state untouched, and a successful checkout on `dbC3` leaves the product
rows unchanged. -/
theorem createOrderFromCart_witness :
    (createOrderFromCart dbC3e 0 (some 1) none "tok").1 = dbC3e ∧
    (createOrderFromCart dbC3 0 (some 1) none "tok").1.products = dbC3.products := by
  constructor
  · exact (createOrderFromCart_atomic dbC3e 0 (some 1) none "tok").1 dbC3e "Cart is empty" rfl
  · obtain ⟨cart, hfc, hne, hval, hst, hprod, -⟩ :=
      (createOrderFromCart_atomic dbC3 0 (some 1) none "tok").2 _ _ rfl
    exact hprod

theorem atMostOne_of_same (dbA dbB : DB) (now : Nat)
    (h : dbA.stockReservations = dbB.stockReservations)
    (hB : AtMostOneActive dbB now) : AtMostOneActive dbA now := by
  unfold AtMostOneActive activePairCount at *
  rw [h]
  exact hB

theorem activePairCount_map_refresh (db : DB) (now : Nat) (cid pid : Nat) (newq : Int)
    (c0 p0 : Nat) :
    activePairCount { db with stockReservations :=
        db.stockReservations.map (refreshReservation cid pid newq now) } now c0 p0
      = activePairCount db now c0 p0 := by
  unfold activePairCount
  show (List.filter _ (List.map _ db.stockReservations)).length = _
  rw [← List.countP_eq_length_filter, ← List.countP_eq_length_filter, List.countP_map]
  refine List.countP_congr ?_
  intro r hr
  simp only [Function.comp_apply]
  unfold refreshReservation
  by_cases hc : (r.cart_id == cid && r.product_id == pid && decide (now < r.expires_at)) = true
  · have h3 : decide (now < r.expires_at) = true := by
      simp only [Bool.and_eq_true] at hc
      exact hc.2
    have hfresh : decide (now < cartAddExpiry now) = true := by
      unfold cartAddExpiry
      simp
    rw [if_pos hc]
    show (r.cart_id == c0 && r.product_id == p0 && decide (now < cartAddExpiry now)) = true
      ↔ (r.cart_id == c0 && r.product_id == p0 && decide (now < r.expires_at)) = true
    rw [hfresh, h3]
  · rw [if_neg hc]

theorem atMostOne_refresh (db : DB) (now : Nat) (cid pid : Nat) (newq : Int)
    (h : AtMostOneActive db now) :
    AtMostOneActive { db with stockReservations :=
        db.stockReservations.map (refreshReservation cid pid newq now) } now := by
  intro r2 hr2
  obtain ⟨r, hr, hfr⟩ := List.mem_map.1 hr2
  have hpair : r2.cart_id = r.cart_id ∧ r2.product_id = r.product_id := by
    rw [← hfr]
    unfold refreshReservation
    by_cases hc : (r.cart_id == cid && r.product_id == pid && decide (now < r.expires_at)) = true
    · rw [if_pos hc]
      exact ⟨rfl, rfl⟩
    · rw [if_neg hc]
      exact ⟨rfl, rfl⟩
  rw [activePairCount_map_refresh, hpair.1, hpair.2]
  exact h r hr

theorem atMostOne_append (db : DB) (now : Nat) (cid pid : Nat) (qty : Int) (exp : Nat)
    (h : AtMostOneActive db now) (h0 : activePairCount db now cid pid = 0) :
    AtMostOneActive { db with stockReservations :=
      db.stockReservations ++ [⟨cid, pid, qty, exp⟩] } now := by
  have hcount : ∀ c0 p0, activePairCount { db with stockReservations :=
        db.stockReservations ++ [(⟨cid, pid, qty, exp⟩ : StockReservation)] } now c0 p0
      = activePairCount db now c0 p0
        + (if (cid == c0 && pid == p0 && decide (now < exp)) = true then 1 else 0) := by
    intro c0 p0
    unfold activePairCount
    show (List.filter _ (db.stockReservations ++ _)).length = _
    rw [List.filter_append, List.length_append]
    congr 1
    by_cases hi : (cid == c0 && pid == p0 && decide (now < exp)) = true
    · rw [if_pos hi]
      simp [List.filter_cons, hi]
    · rw [if_neg hi]
      simp [List.filter_cons, hi]
  intro r2 hr2
  rcases List.mem_append.1 hr2 with hr | hr
  · rw [hcount]
    by_cases hi : (cid == r2.cart_id && pid == r2.product_id && decide (now < exp)) = true
    · have hpsplit : cid = r2.cart_id ∧ pid = r2.product_id := by
        simp only [Bool.and_eq_true, beq_iff_eq] at hi
        exact ⟨hi.1.1, hi.1.2⟩
      rw [if_pos hi, ← hpsplit.1, ← hpsplit.2, h0]
    · rw [if_neg hi]
      have := h r2 hr
      omega
  · have hr2eq : r2 = ⟨cid, pid, qty, exp⟩ := by
      simpa using hr
    subst hr2eq
    rw [hcount]
    have hcc : ((cid == cid && pid == pid && decide (now < exp)) = true)
        ↔ (decide (now < exp) = true) := by
      simp
    by_cases hd : decide (now < exp) = true
    · rw [if_pos (hcc.2 hd), h0]
    · rw [if_neg (fun hx => hd (hcc.1 hx)), h0]
      omega

theorem activePairCount_congr (dbA dbB : DB) (now : Nat) (c0 p0 : Nat)
    (h : dbA.stockReservations = dbB.stockReservations) :
    activePairCount dbA now c0 p0 = activePairCount dbB now c0 p0 := by
  unfold activePairCount
  rw [h]

theorem getOrCreateActiveCart_err (db : DB) (u : Option Nat) (g : Option String)
    (db0 : DB) (e : String)
    (h : getOrCreateActiveCart db u g = (db0, Except.error e)) : db0 = db := by
  unfold getOrCreateActiveCart at h
  split at h
  · injection h with h1 h2
    exact h1.symm
  · split at h
    · injection h with h1 h2
      cases h2
    · injection h with h1 h2
      cases h2

theorem getOrCreateActiveCart_ok (db : DB) (u : Option Nat) (g : Option String)
    (db0 : DB) (cart : Cart)
    (h : getOrCreateActiveCart db u g = (db0, Except.ok cart)) :
    db0.stockReservations = db.stockReservations ∧
    db0.cartItems = db.cartItems ∧
    (cart ∈ db.carts ∧ cart.status = "active" ∧ db0 = db ∨
      cart.cart_id = db.nextCartId) := by
  unfold getOrCreateActiveCart at h
  split at h
  · injection h with h1 h2
    cases h2
  · split at h
    · next c hfc =>
      injection h with h1 h2
      injection h2 with h2
      subst h1
      subst h2
      have hpred := List.find?_some hfc
      simp only [Bool.and_eq_true] at hpred
      refine ⟨rfl, rfl, Or.inl ⟨List.mem_of_find?_eq_some hfc, ?_, rfl⟩⟩
      exact eq_of_beq hpred.2
    · injection h with h1 h2
      injection h2 with h2
      subst h2
      subst h1
      exact ⟨rfl, rfl, Or.inr rfl⟩

theorem activePairCount_zero_of_no_item (db : DB) (now : Nat) (cart : Cart) (pid : Nat)
    (hmem : cart ∈ db.carts) (hst : cart.status = "active")
    (hItem : ReservationHasItem db now)
    (hnone : db.cartItems.find?
      (fun it => it.cart_id == cart.cart_id && it.product_id == pid) = none) :
    activePairCount db now cart.cart_id pid = 0 := by
  unfold activePairCount
  rw [List.length_eq_zero, List.filter_eq_nil_iff]
  intro r hr hpred
  have hsplit : (r.cart_id = cart.cart_id ∧ r.product_id = pid) ∧ now < r.expires_at := by
    simpa using hpred
  obtain ⟨it, hit, hic, hip⟩ :=
    hItem r hr hsplit.2 cart hmem hsplit.1.1.symm hst
  have hno := List.find?_eq_none.1 hnone it hit
  apply hno
  simp [hic, hip, hsplit.1.1, hsplit.1.2]

theorem activePairCount_zero_of_fresh (db : DB) (now : Nat) (pid : Nat)
    (hFresh : ReservationIdsFresh db) :
    activePairCount db now db.nextCartId pid = 0 := by
  unfold activePairCount
  rw [List.length_eq_zero, List.filter_eq_nil_iff]
  intro r hr hpred
  have hsplit : (r.cart_id = db.nextCartId ∧ r.product_id = pid) ∧ now < r.expires_at := by
    simpa using hpred
  have h2 := hFresh r hr
  have h3 := hsplit.1.1
  omega

theorem atMostOne_of_refreshed (dbA dbB : DB) (now : Nat) (cid pid : Nat) (newq : Int)
    (h : dbA.stockReservations
      = dbB.stockReservations.map (refreshReservation cid pid newq now))
    (hB : AtMostOneActive dbB now) : AtMostOneActive dbA now :=
  atMostOne_of_same dbA _ now h (atMostOne_refresh dbB now cid pid newq hB)

theorem atMostOne_of_appended (dbA dbB : DB) (now : Nat) (cid pid : Nat)
    (qty : Int) (exp : Nat)
    (h : dbA.stockReservations = dbB.stockReservations ++ [⟨cid, pid, qty, exp⟩])
    (hB : AtMostOneActive dbB now)
    (h0 : activePairCount dbB now cid pid = 0) : AtMostOneActive dbA now :=
  atMostOne_of_same dbA _ now h (atMostOne_append dbB now cid pid qty exp hB h0)

/-- Claim C6, amended.  Under the auxiliary invariants that every active
reservation of an active cart has a matching cart item and that no
reservation references an unallocated cart id, `addItemToCart` and
`updateCartItem` preserve the at-most-one-active-reservation-per-
(cart_id, product_id) invariant.  (`createOrderFromCart` does not — see
the counterexample, where checkout stacks an order-window reservation on
top of the still-active cart-add reservation of the same pair.) -/
theorem cartOps_preserve_at_most_one_active
    (db : DB) (now : Nat) (u : Option Nat) (g : Option String)
    (productId : Nat) (q : Int) (cartItemId : Nat) (q2 : Int)
    (hInv : AtMostOneActive db now)
    (hItem : ReservationHasItem db now)
    (hFresh : ReservationIdsFresh db) :
    AtMostOneActive (addItemToCart db now u g productId q).1 now ∧
    AtMostOneActive (updateCartItem db now u g cartItemId q2).1 now := by
  constructor
  · unfold addItemToCart
    simp only []
    split
    · next db0 e heq =>
      have hdb0 := getOrCreateActiveCart_err db u g db0 e heq
      subst hdb0
      exact hInv
    · next db0 cart heq =>
      obtain ⟨hres, hitems, hcases⟩ := getOrCreateActiveCart_ok db u g db0 cart heq
      split
      · exact atMostOne_of_same db0 db now hres hInv
      · next product hfp =>
        split
        · exact atMostOne_of_same db0 db now hres hInv
        · split
          · next existingItem hfind =>
            split
            · exact atMostOne_of_same db0 db now hres hInv
            · split
              · exact atMostOne_of_same db0 db now hres hInv
              · exact atMostOne_of_refreshed _ db0 now cart.cart_id productId
                  (existingItem.quantity + q) rfl
                  (atMostOne_of_same db0 db now hres hInv)
          · next hfind =>
            split
            · exact atMostOne_of_same db0 db now hres hInv
            · split
              · exact atMostOne_of_same db0 db now hres hInv
              · refine atMostOne_of_appended _ db0 now cart.cart_id productId q
                  (cartAddExpiry now) rfl
                  (atMostOne_of_same db0 db now hres hInv) ?_
                rcases hcases with ⟨hmem, hst, rfl⟩ | hfreshId
                · exact activePairCount_zero_of_no_item db0 now cart productId
                    hmem hst hItem hfind
                · rw [activePairCount_congr db0 db now cart.cart_id productId hres,
                    hfreshId]
                  exact activePairCount_zero_of_fresh db now productId hFresh
  · unfold updateCartItem
    simp only []
    split
    · exact hInv
    · next cartItem hfind =>
      split
      · exact hInv
      · next cart hfc =>
        split
        · exact hInv
        · split
          · exact hInv
          · split
            · exact hInv
            · next product hfp =>
              split
              · exact hInv
              · exact atMostOne_of_refreshed _ db now cart.cart_id
                  cartItem.product_id q2 rfl hInv

/-- Witness for the amended claim C6 on `dbC8` (an active cart with one
item and its single active reservation): both a quantity bump through
`addItemToCart` and a quantity change through `updateCartItem` keep at
most one active reservation per pair. -/
theorem cartOps_preserve_witness :
    AtMostOneActive (addItemToCart dbC8 0 (some 1) none 1 1).1 0 ∧
    AtMostOneActive (updateCartItem dbC8 0 (some 1) none 5 3).1 0 :=
  cartOps_preserve_at_most_one_active dbC8 0 (some 1) none 1 1 5 3
    (by decide) (by decide) (by decide)

end NPS
